import Mathlib

/-!
Verification of the Tuner (EPICS-RPVI) guitar-tuner engine against its
natural-language specification.

The development shallowly embeds the decision logic of the repository:
* `note_parser.c` — note-name parsing and equal-temperament frequency math;
* `audio_sequencer.c` — the beep-cadence table and the dynamic beep updater;
* `main.cpp` — the session state machine (`state_idle` … `state_error_recovery`).

C strings are modelled as `List Char` (the characters before the NUL
terminator); reading past the end yields the NUL character, as it does for a
NUL-terminated C string.  `float`/`double` values are modelled as real numbers;
`uint32_t` millisecond clocks are modelled as naturals with the wrap-around of
32-bit arithmetic made explicit where the source relies on it.
-/

/- ====================  note_parser.c  ==================== -/

/-- ASCII `toupper`, as used via `<ctype.h>` in `note_parser.c`. -/
def ctoupper (c : Char) : Char :=
  if 'a' ≤ c ∧ c ≤ 'z' then Char.ofNat (c.toNat - 32) else c

/-- `isdigit` from `<ctype.h>`, restricted to the decimal digits. -/
def isdigitChar (c : Char) : Bool :=
  decide ('0' ≤ c) && decide (c ≤ '9')

/-- `getNoteSemitoneOffset` (note_parser.c): semitone offset from C for a note
letter, case-insensitively; `-1` for an invalid letter. -/
def getNoteSemitoneOffset (note_letter : Char) : Int :=
  let u := ctoupper note_letter
  if u = 'C' then 0
  else if u = 'D' then 2
  else if u = 'E' then 4
  else if u = 'F' then 5
  else if u = 'G' then 7
  else if u = 'A' then 9
  else if u = 'B' then 11
  else -1

/-- `calculateNoteFrequency` (note_parser.c): equal-temperament frequency
`440·2^((midi−69)/12)`; returns the sentinel `0.0` for an invalid letter.
Note the octave is *not* range-checked here. -/
noncomputable def calculateNoteFrequency (note_letter : Char) (octave : Int)
    (is_sharp is_flat : Bool) : ℝ :=
  let semitone := getNoteSemitoneOffset note_letter
  if semitone < 0 then 0
  else
    let semitone := semitone + (if is_sharp then 1 else 0) - (if is_flat then 1 else 0)
    let midi_note := (octave + 1) * 12 + semitone
    440 * (2 : ℝ) ^ (((midi_note : ℝ) - 69) / 12)

/-- The `ParsedNote` struct of note_parser.h. -/
structure ParsedNote where
  note_letter : Char
  octave : Int
  is_sharp : Bool
  is_flat : Bool
  frequency : ℝ
  valid : Bool

/-- The zero-initialised `ParsedNote result = {0}` of `parseNoteDetailed`. -/
def nulParsed : ParsedNote :=
  { note_letter := Char.ofNat 0, octave := 0, is_sharp := false, is_flat := false
    frequency := 0, valid := false }

/-- `note[i]` for a NUL-terminated C string modelled as a `List Char`:
past-the-end reads give the terminator. -/
def charAt (l : List Char) (i : Nat) : Char :=
  l.getD i (Char.ofNat 0)

/-- The octave-parsing tail of `parseNoteDetailed`: `c` is the character at the
octave position (after the optional accidental). -/
noncomputable def parseOctave (letter : Char) (is_sharp is_flat : Bool) (c : Char) :
    ParsedNote :=
  if ¬ isdigitChar c then
    { nulParsed with note_letter := letter, is_sharp := is_sharp, is_flat := is_flat }
  else
    let octave : Int := (c.toNat : Int) - 48
    if octave < 0 ∨ octave > 8 then
      { nulParsed with
          note_letter := letter
          octave := octave
          is_sharp := is_sharp
          is_flat := is_flat }
    else
      { note_letter := letter
        octave := octave
        is_sharp := is_sharp
        is_flat := is_flat
        frequency := calculateNoteFrequency letter octave is_sharp is_flat
        valid := true }

/-- The letter-and-accidental part of `parseNoteDetailed`; `rest` is the input
after the leading letter (`note + 1`). -/
noncomputable def parseFromLetter (letter : Char) (rest : List Char) : ParsedNote :=
  if getNoteSemitoneOffset letter < 0 then
    { nulParsed with note_letter := letter }
  else if charAt rest 0 = '#' then parseOctave letter true false (charAt rest 1)
  else if charAt rest 0 = 'b' then parseOctave letter false true (charAt rest 1)
  else parseOctave letter false false (charAt rest 0)

/-- `parseNoteDetailed` (note_parser.c). -/
noncomputable def parseNoteDetailed (note : List Char) : ParsedNote :=
  if charAt note 0 = Char.ofNat 0 then nulParsed
  else parseFromLetter (ctoupper (charAt note 0)) (note.drop 1)

/-- `parseNote` (note_parser.c): frequency of a valid note, else `0.0`. -/
noncomputable def parseNote (note : List Char) : ℝ :=
  let parsed := parseNoteDetailed note
  if parsed.valid then parsed.frequency else 0

/- ====================  audio_sequencer.c  ==================== -/

/-- The `TuningResult` struct of the tuning analyzer (field order as in the
aggregate initialisers of `tuner_tests.c`); the numeric `double` fields are
generic so that the sequencer can be run both over `ℚ` and over `ℝ`. -/
structure TuningResult (α : Type) where
  detected_string : Int
  target_string : Int
  cents_offset : α
  direction : String
  detected_frequency : α
  target_frequency : α
  note_name : String
  octave : Int
deriving DecidableEq

/-- The `BeepRateConfig` struct of audio_sequencer.c. -/
structure BeepRateConfig (α : Type) where
  max_cents : α
  beep_interval : Nat
  beep_duration : Nat
deriving DecidableEq

/-- The `beep_rates` table of audio_sequencer.c.  Each C initialiser lists only
two values, so `beep_duration` is zero-initialised in every tier. -/
def beep_rates (α : Type) [LinearOrderedField α] : List (BeepRateConfig α) :=
  [⟨100, 100, 0⟩, ⟨75, 150, 0⟩, ⟨50, 200, 0⟩, ⟨40, 300, 0⟩,
   ⟨25, 500, 0⟩, ⟨15, 800, 0⟩, ⟨5, 1200, 0⟩, ⟨0, 0, 0⟩]

/-- The scan loop of `calculate_beep_interval`: first tier whose lower bound is
satisfied wins; the fall-through return value is 0. -/
def beepIntervalScan (α : Type) [LinearOrderedField α] (abs_cents : α) :
    List (BeepRateConfig α) → Nat
  | [] => 0
  | r :: rs =>
      if r.max_cents ≤ abs_cents then r.beep_interval else beepIntervalScan α abs_cents rs

/-- `calculate_beep_interval` (audio_sequencer.c). -/
def calculate_beep_interval (α : Type) [LinearOrderedField α] (cents_offset : α) : Nat :=
  beepIntervalScan α |cents_offset| (beep_rates α)

/-- The sequencer-module state mutated by `generate_dynamic_beep_feedback` and
`audio_sequencer_update_beeps` (statics of audio_sequencer.c). -/
structure SeqState (α : Type) where
  beeping_active : Bool
  current_result : Option (TuningResult α)
  last_beep_time : Nat
  beep_end_time : Nat
deriving DecidableEq

/-- A beep emitted through `teensy_play_beep`. -/
structure BeepEvent (α : Type) where
  freq : α
  duration_ms : Nat
deriving DecidableEq

/-- `generate_dynamic_beep_feedback` (audio_sequencer.c). -/
def generate_dynamic_beep_feedback (α : Type) [LinearOrderedField α]
    (s : SeqState α) (result : Option (TuningResult α)) : SeqState α :=
  match result with
  | none => { s with beeping_active := false }
  | some r =>
      let beep_interval := calculate_beep_interval α r.cents_offset
      if beep_interval = 0 then
        { s with beeping_active := false, current_result := some r }
      else
        { s with beeping_active := true, last_beep_time := 0, current_result := some r }

/-- `audio_sequencer_update_beeps` (audio_sequencer.c); the returned event is
the argument of the `teensy_play_beep(800.0f, 50)` call when it fires.  The sum
`last_beep_time + beep_interval` is computed in `uint32_t`, hence the explicit
wrap-around. -/
def audio_sequencer_update_beeps (α : Type) [LinearOrderedField α]
    (s : SeqState α) (current_time_ms : Nat) : SeqState α × Option (BeepEvent α) :=
  match s.current_result with
  | none => (s, none)
  | some r =>
      if s.beeping_active = false then (s, none)
      else
        let beep_interval := calculate_beep_interval α r.cents_offset
        if beep_interval = 0 then ({ s with beeping_active := false }, none)
        else if (s.last_beep_time + beep_interval) % 4294967296 ≤ current_time_ms then
          ({ s with
              last_beep_time := current_time_ms
              beep_end_time := (current_time_ms + 50) % 4294967296 },
           some ⟨800, 50⟩)
        else (s, none)

/- ====================  main.cpp: session state machine  ==================== -/

/-- `tuner_state_t` (main.cpp). -/
inductive tuner_state_t
  | idle
  | playingReference
  | waitingReadyBeep
  | listening
  | playbackUserNote
  | playbackTargetNote
  | providingFeedback
  | errorRecovery
deriving DecidableEq

/-- `tuner_mode_t` (main.cpp). -/
inductive tuner_mode_t
  | mode_play_tone
  | mode_listen_only
deriving DecidableEq

/-- The `STRING_NOTES` table of main.cpp. -/
def STRING_NOTES (i : Nat) : List Char :=
  if i = 0 then ['E', '4']
  else if i = 1 then ['B', '3']
  else if i = 2 then ['G', '3']
  else if i = 3 then ['D', '3']
  else if i = 4 then ['A', '2']
  else if i = 5 then ['E', '2']
  else []

/-- `STRING_FREQUENCIES`, computed in `setup()` by `parseNote` on the note
names. -/
noncomputable def STRING_FREQUENCIES (i : Nat) : ℝ :=
  parseNote (STRING_NOTES i)

/-- `uint32_t` subtraction `a - b`, used for all `millis() - state_entry_time`
elapsed-time computations (`4294967296 = 2^32`). -/
def usub32 (a b : Nat) : Nat :=
  (a + 4294967296 - b % 4294967296) % 4294967296

/-- The static session state of main.cpp (plus the amplifier level and the
sequencer module state it drives). -/
structure TunerSys where
  current_state : tuner_state_t
  tuner_mode : tuner_mode_t
  target_string : Int
  target_frequency : ℝ
  detected_frequency : ℝ
  state_entry_time : Nat
  last_beep_update : Nat
  weak_signal_count : Int
  latest_result : TuningResult ℝ
  tuning_in_progress : Bool
  warning_played : Bool
  amp_enabled : Bool
  seq : SeqState ℝ

/-- The external inputs consumed during one `loop()` iteration: the clock,
the edge-triggered button event, the level state of the buttons, the detected
frequency and the mode switch. -/
structure PollInput where
  now : Nat
  buttonEvent : Option (Int × Bool)
  buttonHeld : Int → Bool
  freq : ℝ
  modeSwitch : tuner_mode_t

/-- The user-visible outputs of one `loop()` iteration that the claims are
about: the tactile warning cue and the feedback beep. -/
structure PollOut where
  warningEmitted : Bool
  beep : Option (BeepEvent ℝ)

/-- `state_idle` (main.cpp): on a pressed event, record the target, validate
it, enable the amplifier, read the mode switch, and start the session. -/
noncomputable def state_idle (s : TunerSys) (inp : PollInput) : TunerSys :=
  match inp.buttonEvent with
  | none => s
  | some (id, pressed) =>
      if pressed then
        let s := { s with target_string := id }
        if id < 1 ∨ id > 6 then s
        else
          let s := { s with
            target_frequency := STRING_FREQUENCIES (id - 1).toNat
            amp_enabled := true
            tuner_mode := inp.modeSwitch }
          if s.tuner_mode = tuner_mode_t.mode_play_tone then
            { s with current_state := .playingReference, state_entry_time := inp.now }
          else
            { s with current_state := .waitingReadyBeep, state_entry_time := inp.now }
      else s

/-- `state_playing_reference` (main.cpp). -/
noncomputable def state_playing_reference (s : TunerSys) (inp : PollInput) : TunerSys :=
  let s :=
    if usub32 inp.now s.state_entry_time ≥ 2000 then
      { s with current_state := .waitingReadyBeep, state_entry_time := inp.now }
    else s
  if inp.buttonHeld s.target_string then s
  else { s with current_state := .idle, target_string := 0, amp_enabled := false }

/-- `state_waiting_ready_beep` (main.cpp). -/
noncomputable def state_waiting_ready_beep (s : TunerSys) (inp : PollInput) : TunerSys :=
  let s :=
    if usub32 inp.now s.state_entry_time ≥ 200 then
      { s with
          current_state := .listening
          state_entry_time := inp.now
          weak_signal_count := 0
          detected_frequency := 0 }
    else s
  if inp.buttonHeld s.target_string then s
  else { s with current_state := .idle, target_string := 0, amp_enabled := false }

/-- `state_listening` (main.cpp); `analyze` is `analyze_tuning` of
string_detection.c, whose implementation is not part of this tree, so the step
is parametric in it. -/
noncomputable def state_listening (analyze : ℝ → Int → TuningResult ℝ)
    (s : TunerSys) (inp : PollInput) : TunerSys :=
  let s :=
    if inp.freq > 0 then
      { s with
          detected_frequency := inp.freq
          latest_result := analyze inp.freq s.target_string
          current_state := .playbackUserNote
          state_entry_time := inp.now
          weak_signal_count := 0 }
    else
      let s := { s with weak_signal_count := s.weak_signal_count + 1 }
      if s.weak_signal_count ≥ 10 then
        { s with current_state := .errorRecovery, state_entry_time := inp.now }
      else s
  let s :=
    if usub32 inp.now s.state_entry_time ≥ 5000 then
      { s with current_state := .errorRecovery, state_entry_time := inp.now }
    else s
  if inp.buttonHeld s.target_string then s
  else { s with current_state := .idle, target_string := 0, amp_enabled := false }

/-- `state_playback_user_note` (main.cpp). -/
noncomputable def state_playback_user_note (s : TunerSys) (inp : PollInput) : TunerSys :=
  let s :=
    if usub32 inp.now s.state_entry_time ≥ 1500 then
      { s with current_state := .playbackTargetNote, state_entry_time := inp.now }
    else s
  if inp.buttonHeld s.target_string then s
  else { s with current_state := .idle, target_string := 0, amp_enabled := false }

/-- `state_playback_target_note` (main.cpp): when the target tone ends, the
stored analysis result is handed to `generate_dynamic_beep_feedback` and the
state moves to `providingFeedback`. -/
noncomputable def state_playback_target_note (s : TunerSys) (inp : PollInput) : TunerSys :=
  let s :=
    if usub32 inp.now s.state_entry_time ≥ 1500 then
      { s with
          current_state := .providingFeedback
          seq := generate_dynamic_beep_feedback ℝ s.seq (some s.latest_result)
          last_beep_update := inp.now
          tuning_in_progress := true }
    else s
  if inp.buttonHeld s.target_string then s
  else { s with current_state := .idle, target_string := 0, amp_enabled := false }

/-- `state_providing_feedback` (main.cpp). -/
noncomputable def state_providing_feedback (analyze : ℝ → Int → TuningResult ℝ)
    (s : TunerSys) (inp : PollInput) : TunerSys × Option (BeepEvent ℝ) :=
  let sb :=
    if usub32 inp.now s.last_beep_update ≥ 10 then
      let qb := audio_sequencer_update_beeps ℝ s.seq inp.now
      ({ s with seq := qb.1, last_beep_update := inp.now }, qb.2)
    else (s, none)
  let s := sb.1
  let s :=
    if inp.freq > 0 then
      let r := analyze inp.freq s.target_string
      { s with
          latest_result := r
          seq := generate_dynamic_beep_feedback ℝ s.seq (some r)
          weak_signal_count := 0 }
    else
      let s := { s with weak_signal_count := s.weak_signal_count + 1 }
      if s.weak_signal_count ≥ 10 then
        { s with current_state := .listening, state_entry_time := inp.now }
      else s
  let s :=
    if inp.buttonHeld s.target_string then s
    else
      { s with
          current_state := .idle
          target_string := 0
          tuning_in_progress := false
          amp_enabled := false }
  (s, sb.2)

/-- `state_error_recovery` (main.cpp); the returned flag records whether the
`tactile_feedback_warning()` cue was emitted during this poll. -/
noncomputable def state_error_recovery (s : TunerSys) (inp : PollInput) :
    TunerSys × Bool :=
  let emitted := ! s.warning_played
  let s := if s.warning_played then s else { s with warning_played := true }
  let s :=
    if usub32 inp.now s.state_entry_time ≥ 2000 then
      { s with
          current_state := .listening
          state_entry_time := inp.now
          weak_signal_count := 0
          warning_played := false }
    else s
  let s :=
    if inp.buttonHeld s.target_string then s
    else
      { s with
          current_state := .idle
          target_string := 0
          amp_enabled := false
          warning_played := false }
  (s, emitted)

/-- The state dispatch of `loop()` (main.cpp): one cooperative poll. -/
noncomputable def tuner_update (analyze : ℝ → Int → TuningResult ℝ)
    (s : TunerSys) (inp : PollInput) : TunerSys × PollOut :=
  match s.current_state with
  | .idle => (state_idle s inp, ⟨false, none⟩)
  | .playingReference => (state_playing_reference s inp, ⟨false, none⟩)
  | .waitingReadyBeep => (state_waiting_ready_beep s inp, ⟨false, none⟩)
  | .listening => (state_listening analyze s inp, ⟨false, none⟩)
  | .playbackUserNote => (state_playback_user_note s inp, ⟨false, none⟩)
  | .playbackTargetNote => (state_playback_target_note s inp, ⟨false, none⟩)
  | .providingFeedback =>
      let sb := state_providing_feedback analyze s inp
      (sb.1, ⟨false, sb.2⟩)
  | .errorRecovery =>
      let sw := state_error_recovery s inp
      (sw.1, ⟨sw.2, none⟩)

/- ====================  string_detection (spec-modelled)  ==================== -/

/-- The `GuitarString` struct of note_parser.h. -/
structure GuitarString where
  string_number : Int
  note : String
  frequency : ℝ

/-- The `STANDARD_TUNING` table of note_parser.c. -/
noncomputable def STANDARD_TUNING : List GuitarString :=
  [⟨1, "E4", 329.63⟩, ⟨2, "B3", 246.94⟩, ⟨3, "G3", 196.00⟩,
   ⟨4, "D3", 146.83⟩, ⟨5, "A2", 110.00⟩, ⟨6, "E2", 82.41⟩]

/-- Modelled from the spec: `calculate_cents_offset` of string_detection.c is
not under src/; the spec defines it as `1200 × log2(detected/target)`. -/
noncomputable def calculate_cents_offset (detected target : ℝ) : ℝ :=
  1200 * Real.logb 2 (detected / target)

/-- Modelled from the spec: `get_tuning_direction` of string_detection.c is not
under src/; the spec maps a cents offset to `IN_TUNE` within the tolerance,
`UP` when below target and `DOWN` when above. -/
noncomputable def get_tuning_direction (cents : ℝ) : String :=
  if |cents| < 5 then "IN_TUNE"
  else if cents < 0 then "UP"
  else "DOWN"

/-- Modelled from the spec: the scan choosing the string of `STANDARD_TUNING`
whose reference frequency is nearest to `detected` on a logarithmic (semitone)
distance. -/
noncomputable def nearestStringScan (detected : ℝ) (best : GuitarString) :
    List GuitarString → GuitarString
  | [] => best
  | g :: gs =>
      nearestStringScan detected
        (if |Real.logb 2 (detected / g.frequency)| <
            |Real.logb 2 (detected / best.frequency)| then g else best) gs

/-- Modelled from the spec: `analyze_tuning_auto` of string_detection.c is not
under src/ (only its tests and callers are).  Per the spec, when
`detected ≤ 0` it returns a result with direction `UNKNOWN` and cents offset 0
rather than fabricating a value; otherwise it analyzes against the string
nearest in log-frequency distance. -/
noncomputable def analyze_tuning_auto (detected : ℝ) : TuningResult ℝ :=
  if detected ≤ 0 then
    { detected_string := 0
      target_string := 0
      cents_offset := 0
      direction := "UNKNOWN"
      detected_frequency := detected
      target_frequency := 0
      note_name := ""
      octave := 0 }
  else
    let g := nearestStringScan detected ⟨1, "E4", 329.63⟩ STANDARD_TUNING
    let cents := calculate_cents_offset detected g.frequency
    { detected_string := g.string_number
      target_string := g.string_number
      cents_offset := cents
      direction := get_tuning_direction cents
      detected_frequency := detected
      target_frequency := g.frequency
      note_name := g.note
      octave := 0 }

/- ====================  concrete test fixtures  ==================== -/

/-- A concrete analysis result over `ℚ`, as in the `tuner_tests.c` fixtures. -/
def sampleResultQ : TuningResult ℚ :=
  ⟨5, 5, 50, "UP", 108, 110, "A", 2⟩

/-- A concrete sequencer state with beeping active on `sampleResultQ`. -/
def sampleSeqQ : SeqState ℚ :=
  ⟨true, some sampleResultQ, 0, 0⟩

/-- A concrete analysis result over `ℝ`. -/
noncomputable def sampleResultR : TuningResult ℝ :=
  ⟨5, 5, 0, "IN_TUNE", 110, 110, "A", 2⟩

/-- A constant stand-in for the external tuning analyzer. -/
noncomputable def analyzeConst : ℝ → Int → TuningResult ℝ :=
  fun _ _ => sampleResultR

/-- A concrete session state targeting string 5, parameterised by the current
state tag. -/
noncomputable def sampleSys (st : tuner_state_t) : TunerSys :=
  { current_state := st
    tuner_mode := .mode_play_tone
    target_string := 5
    target_frequency := 110
    detected_frequency := 0
    state_entry_time := 0
    last_beep_update := 0
    weak_signal_count := 3
    latest_result := sampleResultR
    tuning_in_progress := false
    warning_played := false
    amp_enabled := true
    seq := ⟨false, none, 0, 0⟩ }

/-- A concrete poll input: no button event, every button at the given level,
the given detected frequency. -/
noncomputable def sampleInput (now : Nat) (freq : ℝ) (held : Bool) : PollInput :=
  ⟨now, none, fun _ => held, freq, .mode_play_tone⟩

/- ====================  helper lemmas: parser  ==================== -/

theorem toNat_ofNat_upper {n : Nat} (h1 : 65 ≤ n) (h2 : n ≤ 90) :
    (Char.ofNat n).toNat = n := by
  interval_cases n <;> decide

theorem char_le_iff_toNat (a b : Char) : a ≤ b ↔ a.toNat ≤ b.toNat :=
  Char.le_def

theorem ctoupper_idem (c : Char) : ctoupper (ctoupper c) = ctoupper c := by
  unfold ctoupper
  by_cases h : 'a' ≤ c ∧ c ≤ 'z'
  · rw [if_pos h]
    obtain ⟨h1, h2⟩ := h
    rw [char_le_iff_toNat] at h1 h2
    have e1 : ('a').toNat = 97 := by decide
    have e2 : ('z').toNat = 122 := by decide
    rw [e1] at h1
    rw [e2] at h2
    have hn : (Char.ofNat (c.toNat - 32)).toNat = c.toNat - 32 := by
      apply toNat_ofNat_upper <;> omega
    rw [if_neg]
    intro hcon
    obtain ⟨ha, _⟩ := hcon
    rw [char_le_iff_toNat, hn, e1] at ha
    omega
  · rw [if_neg h, if_neg h]

theorem getNoteSemitoneOffset_ctoupper (c : Char) :
    getNoteSemitoneOffset (ctoupper c) = getNoteSemitoneOffset c := by
  unfold getNoteSemitoneOffset
  rw [ctoupper_idem]

theorem char_eq_iff_toNat (a b : Char) : a = b ↔ a.toNat = b.toNat := by
  constructor
  · intro h
    rw [h]
  · intro h
    exact Char.eq_of_val_eq (UInt32.ext h)

theorem isdigit_toNat {c : Char} (h : isdigitChar c = true) :
    48 ≤ c.toNat ∧ c.toNat ≤ 57 := by
  unfold isdigitChar at h
  rw [Bool.and_eq_true, decide_eq_true_iff, decide_eq_true_iff] at h
  obtain ⟨h1, h2⟩ := h
  rw [char_le_iff_toNat] at h1 h2
  have e1 : ('0').toNat = 48 := by decide
  have e2 : ('9').toNat = 57 := by decide
  rw [e1] at h1
  rw [e2] at h2
  exact ⟨h1, h2⟩

theorem digit_out_of_range_iff {c : Char} (h : isdigitChar c = true) :
    (((c.toNat : Int) - 48 < 0 ∨ (c.toNat : Int) - 48 > 8) ↔ c = '9') := by
  obtain ⟨h1, h2⟩ := isdigit_toNat h
  rw [char_eq_iff_toNat]
  have e : ('9').toNat = 57 := by decide
  rw [e]
  omega

theorem parseOctave_valid (letter : Char) (s f : Bool) (c : Char) :
    (parseOctave letter s f c).valid = true ↔ (isdigitChar c = true ∧ c ≠ '9') := by
  unfold parseOctave
  by_cases hd : isdigitChar c = true
  · rw [if_neg (by simp [hd])]
    simp only [hd, true_and]
    split
    · rename_i ho
      simp only [nulParsed]
      constructor
      · intro h
        cases h
      · intro h
        exact absurd ((digit_out_of_range_iff hd).mp ho) h
    · rename_i ho
      constructor
      · intro _
        intro h9
        exact ho ((digit_out_of_range_iff hd).mpr h9)
      · intro _
        rfl
  · rw [if_pos (by simp [hd])]
    simp [nulParsed, hd]

theorem parseOctave_octave_bounds (letter : Char) (s f : Bool) (c : Char)
    (h : (parseOctave letter s f c).valid = true) :
    0 ≤ (parseOctave letter s f c).octave ∧ (parseOctave letter s f c).octave ≤ 8 := by
  by_cases hd : isdigitChar c = true
  · by_cases ho : ((c.toNat : Int) - 48 < 0 ∨ (c.toNat : Int) - 48 > 8)
    · exfalso
      unfold parseOctave at h
      rw [if_neg (by simp [hd])] at h
      simp only at h
      rw [if_pos ho] at h
      simp [nulParsed] at h
    · unfold parseOctave
      rw [if_neg (by simp [hd])]
      simp only
      rw [if_neg ho]
      simp only
      omega
  · exfalso
    unfold parseOctave at h
    rw [if_pos (by simp [hd])] at h
    simp [nulParsed] at h

theorem charAt_cons_zero (c : Char) (l : List Char) : charAt (c :: l) 0 = c := rfl

theorem charAt_drop_one (l : List Char) (i : Nat) :
    charAt (l.drop 1) i = charAt l (i + 1) := by
  cases l <;> rfl

/-- The shapes `parseNoteDetailed` actually accepts: a valid note letter, an
optional `#`/`b`, then one digit in `0`–`8`; characters after the octave digit
are never examined. -/
theorem parse_valid_characterization (l : List Char) :
    (parseNoteDetailed l).valid = true ↔
      (0 ≤ getNoteSemitoneOffset (charAt l 0) ∧
       ((charAt l 1 = '#' ∨ charAt l 1 = 'b') →
          (isdigitChar (charAt l 2) = true ∧ charAt l 2 ≠ '9')) ∧
       (¬ (charAt l 1 = '#' ∨ charAt l 1 = 'b') →
          (isdigitChar (charAt l 1) = true ∧ charAt l 1 ≠ '9'))) := by
  unfold parseNoteDetailed
  by_cases h0 : charAt l 0 = Char.ofNat 0
  · rw [if_pos h0]
    constructor
    · intro h
      exact absurd h (by simp [nulParsed])
    · rintro ⟨h1, -, -⟩
      rw [h0] at h1
      revert h1
      decide
  · rw [if_neg h0]
    unfold parseFromLetter
    simp only [charAt_drop_one]
    rw [getNoteSemitoneOffset_ctoupper]
    by_cases hs : getNoteSemitoneOffset (charAt l 0) < 0
    · rw [if_pos hs]
      constructor
      · intro h
        exact absurd h (by simp [nulParsed])
      · rintro ⟨h1, -, -⟩
        omega
    · rw [if_neg hs]
      by_cases hsh : charAt l 1 = '#'
      · rw [if_pos hsh, parseOctave_valid]
        simp only [hsh, true_or, not_true_eq_false, false_implies, and_true, forall_const]
        exact ⟨fun h => ⟨by omega, h⟩, fun h => h.2⟩
      · by_cases hb : charAt l 1 = 'b'
        · rw [if_neg hsh, if_pos hb, parseOctave_valid]
          simp only [hb, or_true, not_true_eq_false, false_implies, and_true, forall_const]
          exact ⟨fun h => ⟨by omega, h⟩, fun h => h.2⟩
        · rw [if_neg hsh, if_neg hb, parseOctave_valid]
          simp only [hsh, hb, or_self, not_false_eq_true, false_implies, true_and,
            forall_const, false_or]
          exact ⟨fun h => ⟨by omega, h⟩, fun h => h.2⟩

theorem ctoupper_eq_nul_iff (c : Char) :
    ctoupper c = Char.ofNat 0 ↔ c = Char.ofNat 0 := by
  unfold ctoupper
  by_cases h : 'a' ≤ c ∧ c ≤ 'z'
  · rw [if_pos h]
    obtain ⟨h1, h2⟩ := h
    rw [char_le_iff_toNat] at h1 h2
    have e1 : ('a').toNat = 97 := by decide
    have e2 : ('z').toNat = 122 := by decide
    rw [e1] at h1
    rw [e2] at h2
    have hn : (Char.ofNat (c.toNat - 32)).toNat = c.toNat - 32 :=
      toNat_ofNat_upper (by omega) (by omega)
    have e0 : (Char.ofNat 0).toNat = 0 := by decide
    constructor
    · intro hc
      rw [char_eq_iff_toNat, hn, e0] at hc
      exact absurd hc (by omega)
    · intro hc
      rw [char_eq_iff_toNat] at hc
      exact absurd hc (by intro hc'; revert h1; rw [hc']; decide)
  · rw [if_neg h]

/-- `parseNoteDetailed` only looks at the note letter through `toupper`: a
lowercase letter parses exactly as its uppercase form. -/
theorem parseNoteDetailed_ctoupper (c : Char) (rest : List Char) :
    parseNoteDetailed (ctoupper c :: rest) = parseNoteDetailed (c :: rest) := by
  by_cases h : c = Char.ofNat 0
  · rw [h]
    rfl
  · have h' : ¬ ctoupper c = Char.ofNat 0 := fun hc => h ((ctoupper_eq_nul_iff c).mp hc)
    unfold parseNoteDetailed
    simp only [charAt_cons_zero, List.drop_succ_cons, List.drop_zero]
    rw [if_neg h', if_neg h, ctoupper_idem]

/-- A capital `B` in the accidental position is not recognised: only the
lowercase `b` denotes a flat, so the octave digit is then missing. -/
theorem parse_upper_B_invalid (l : List Char) (h : charAt l 1 = 'B') :
    (parseNoteDetailed l).valid = false := by
  by_cases hv : (parseNoteDetailed l).valid = true
  · exfalso
    obtain ⟨-, -, h3⟩ := (parse_valid_characterization l).mp hv
    rw [h] at h3
    have hcon := h3 (by decide)
    exact absurd hcon.1 (by decide)
  · simpa using hv

/-- Any note accepted by `parseNoteDetailed` carries an octave in `[0, 8]`. -/
theorem parse_octave_bounds (l : List Char)
    (h : (parseNoteDetailed l).valid = true) :
    0 ≤ (parseNoteDetailed l).octave ∧ (parseNoteDetailed l).octave ≤ 8 := by
  unfold parseNoteDetailed at h ⊢
  by_cases h0 : charAt l 0 = Char.ofNat 0
  · rw [if_pos h0] at h
    exact absurd h (by simp [nulParsed])
  · rw [if_neg h0] at h ⊢
    unfold parseFromLetter at h ⊢
    by_cases hs : getNoteSemitoneOffset (ctoupper (charAt l 0)) < 0
    · rw [if_pos hs] at h
      exact absurd h (by simp [nulParsed])
    · rw [if_neg hs] at h ⊢
      by_cases hsh : charAt (l.drop 1) 0 = '#'
      · rw [if_pos hsh] at h ⊢
        exact parseOctave_octave_bounds _ _ _ _ h
      · by_cases hb : charAt (l.drop 1) 0 = 'b'
        · rw [if_neg hsh, if_pos hb] at h ⊢
          exact parseOctave_octave_bounds _ _ _ _ h
        · rw [if_neg hsh, if_neg hb] at h ⊢
          exact parseOctave_octave_bounds _ _ _ _ h

/- ====================  helper lemmas: sequencer  ==================== -/

/-- Closed form of the cadence table scan. -/
theorem calculate_beep_interval_eq (α : Type) [LinearOrderedField α] (c : α) :
    calculate_beep_interval α c =
      if 100 ≤ |c| then 100
      else if 75 ≤ |c| then 150
      else if 50 ≤ |c| then 200
      else if 40 ≤ |c| then 300
      else if 25 ≤ |c| then 500
      else if 15 ≤ |c| then 800
      else if 5 ≤ |c| then 1200
      else 0 := by
  simp only [calculate_beep_interval, beep_rates, beepIntervalScan]
  split_ifs <;> rfl

set_option maxHeartbeats 1600000 in
/-- The cadence interval is antitone in the cents magnitude, on the beeping
bands (magnitude at least 5 cents). -/
theorem calculate_beep_interval_anti (α : Type) [LinearOrderedField α]
    (c1 c2 : α) (h5 : 5 ≤ |c2|) (h : |c2| ≤ |c1|) :
    calculate_beep_interval α c1 ≤ calculate_beep_interval α c2 := by
  rw [calculate_beep_interval_eq, calculate_beep_interval_eq]
  split_ifs <;> first | omega | linarith

/- ====================  helper lemmas: state machine  ==================== -/

theorem usub32_self (a : Nat) : usub32 a a = 0 := by
  unfold usub32
  omega

theorem usub32_of_le {a b : Nat} (hb : b ≤ a) (ha : a < 4294967296) :
    usub32 a b = a - b := by
  unfold usub32
  omega

/- ====================  claims  ==================== -/

/-- C8: for every detected frequency ≤ 0, the auto-detection analysis returns a
result with direction `UNKNOWN` and cents offset 0, never a fabricated cents
value. -/
theorem c8_auto_unknown (detected : ℝ) (h : detected ≤ 0) :
    (analyze_tuning_auto detected).direction = "UNKNOWN" ∧
    (analyze_tuning_auto detected).cents_offset = 0 := by
  unfold analyze_tuning_auto
  rw [if_pos h]
  exact ⟨rfl, rfl⟩

theorem c8_witness :
    (0 : ℝ) ≤ 0 ∧
    ((analyze_tuning_auto 0).direction = "UNKNOWN" ∧
     (analyze_tuning_auto 0).cents_offset = 0) :=
  ⟨le_refl 0, c8_auto_unknown 0 (le_refl 0)⟩

/-- C4: `calculate_beep_interval` is a monotonic step function of the cents
magnitude — a larger magnitude (at least 5 cents) never yields a longer
interval — and any magnitude below 5 cents yields interval 0 (no beep). -/
theorem c4_cadence_monotone (α : Type) [LinearOrderedField α] :
    (∀ c1 c2 : α, 5 ≤ |c2| → |c2| ≤ |c1| →
        calculate_beep_interval α c1 ≤ calculate_beep_interval α c2) ∧
    (∀ c : α, |c| < 5 → calculate_beep_interval α c = 0) := by
  constructor
  · intro c1 c2 h5 h
    exact calculate_beep_interval_anti α c1 c2 h5 h
  · intro c h
    rw [calculate_beep_interval_eq]
    split_ifs <;> first | rfl | linarith

theorem c4_witness :
    ((5 : ℚ) ≤ |(30 : ℚ)| ∧ |(30 : ℚ)| ≤ |(80 : ℚ)| ∧
      calculate_beep_interval ℚ 80 ≤ calculate_beep_interval ℚ 30) ∧
    (|(3 : ℚ)| < 5 ∧ calculate_beep_interval ℚ 3 = 0) :=
  ⟨⟨by decide, by decide, (c4_cadence_monotone ℚ).1 80 30 (by decide) (by decide)⟩,
   ⟨by decide, (c4_cadence_monotone ℚ).2 3 (by decide)⟩⟩

/-- C3 (counterexample): `calculateNoteFrequency` itself does not range-check
the octave — at the out-of-range octave 9 it fabricates a frequency instead of
returning the 0.0 sentinel, contrary to the claim. -/
theorem c3_counterexample :
    ¬ ((0 : Int) ≤ 9 ∧ (9 : Int) ≤ 8) ∧
    calculateNoteFrequency 'A' 9 false false ≠ 0 := by
  constructor
  · decide
  · unfold calculateNoteFrequency
    rw [if_neg (by decide)]
    positivity

/-- C3 (amended): `calculateNoteFrequency` returns the sentinel 0.0 exactly
when the note letter is invalid; the octave range [0,8] is enforced one level
up, in `parseNoteDetailed`, which never accepts a note with an out-of-range
octave. -/
theorem c3_amended :
    (∀ (letter : Char) (octave : Int) (s f : Bool),
        calculateNoteFrequency letter octave s f = 0 ↔
          getNoteSemitoneOffset letter < 0) ∧
    (∀ l : List Char, (parseNoteDetailed l).valid = true →
        0 ≤ (parseNoteDetailed l).octave ∧ (parseNoteDetailed l).octave ≤ 8) := by
  constructor
  · intro letter octave s f
    unfold calculateNoteFrequency
    by_cases hs : getNoteSemitoneOffset letter < 0
    · rw [if_pos hs]
      simp [hs]
    · rw [if_neg hs]
      simp only [hs, iff_false]
      positivity
  · exact parse_octave_bounds

theorem c3_witness :
    (parseNoteDetailed ['E', '4']).valid = true ∧
    (0 ≤ (parseNoteDetailed ['E', '4']).octave ∧
     (parseNoteDetailed ['E', '4']).octave ≤ 8) :=
  ⟨by decide, c3_amended.2 ['E', '4'] (by decide)⟩

/-- C7 (counterexample): `parseNoteDetailed` never examines characters after
the octave digit, so the string `"E4x"` — which the claim says must be
invalid — is accepted. -/
theorem c7_counterexample : (parseNoteDetailed ['E', '4', 'x']).valid = true := by
  decide

/-- C7 (amended): `parseNoteDetailed` accepts exactly the strings that start
with a note letter, an optional `#`/`b`, and a decimal digit octave in 0–8;
anything after the octave digit is ignored, not rejected. -/
theorem c7_amended (l : List Char) :
    (parseNoteDetailed l).valid = true ↔
      (0 ≤ getNoteSemitoneOffset (charAt l 0) ∧
       ((charAt l 1 = '#' ∨ charAt l 1 = 'b') →
          (isdigitChar (charAt l 2) = true ∧ charAt l 2 ≠ '9')) ∧
       (¬ (charAt l 1 = '#' ∨ charAt l 1 = 'b') →
          (isdigitChar (charAt l 1) = true ∧ charAt l 1 ≠ '9'))) :=
  parse_valid_characterization l

/-- C10: the note letter is parsed case-insensitively (a lowercase letter gives
exactly the same `ParsedNote` as its uppercase form), but the flat accidental
is recognised only as a lowercase `b`: a capital `B` in the accidental position
makes the string invalid. -/
theorem c10_case_insensitive :
    (∀ (c : Char) (rest : List Char),
        parseNoteDetailed (ctoupper c :: rest) = parseNoteDetailed (c :: rest)) ∧
    (∀ l : List Char, charAt l 1 = 'B' → (parseNoteDetailed l).valid = false) :=
  ⟨parseNoteDetailed_ctoupper, parse_upper_B_invalid⟩

theorem c10_witness :
    charAt ['E', 'B', '4'] 1 = 'B' ∧ (parseNoteDetailed ['E', 'B', '4']).valid = false :=
  ⟨by decide, c10_case_insensitive.2 ['E', 'B', '4'] (by decide)⟩

/-- C6: with beeping active on a current result, `audio_sequencer_update_beeps`
fires a beep exactly when the configured interval is positive and
`current_time_ms − last_beep_time ≥ interval`; a zero interval (in tune) never
fires a beep. -/
theorem c6_update_beeps :
    (∀ (s : SeqState ℚ) (r : TuningResult ℚ) (now : Nat),
        s.beeping_active = true →
        s.current_result = some r →
        s.last_beep_time + calculate_beep_interval ℚ r.cents_offset < 4294967296 →
        ((audio_sequencer_update_beeps ℚ s now).2.isSome = true ↔
          (0 < calculate_beep_interval ℚ r.cents_offset ∧
           calculate_beep_interval ℚ r.cents_offset ≤ now - s.last_beep_time))) ∧
    (∀ (s : SeqState ℚ) (r : TuningResult ℚ) (now : Nat),
        s.current_result = some r →
        calculate_beep_interval ℚ r.cents_offset = 0 →
        (audio_sequencer_update_beeps ℚ s now).2 = none) := by
  constructor
  · rintro ⟨ba, cr, lbt, bet⟩ r now hba hcr hov
    simp only at hba hcr hov ⊢
    subst hba
    subst hcr
    simp only [audio_sequencer_update_beeps]
    by_cases hi : calculate_beep_interval ℚ r.cents_offset = 0
    · rw [if_neg (by simp), if_pos hi]
      simp
      omega
    · rw [if_neg (by simp), if_neg hi]
      have hmod : (lbt + calculate_beep_interval ℚ r.cents_offset) % 4294967296 =
          lbt + calculate_beep_interval ℚ r.cents_offset :=
        Nat.mod_eq_of_lt hov
      rw [hmod]
      by_cases ht : lbt + calculate_beep_interval ℚ r.cents_offset ≤ now
      · rw [if_pos ht]
        simp only [Option.isSome_some, true_iff]
        omega
      · rw [if_neg ht]
        simp only [Option.isSome_none, Bool.false_eq_true, false_iff]
        omega
  · rintro ⟨ba, cr, lbt, bet⟩ r now hcr hi
    simp only at hcr
    subst hcr
    simp only [audio_sequencer_update_beeps]
    by_cases hba : ba = false
    · rw [if_pos hba]
    · rw [if_neg hba, if_pos hi]

theorem c6_witness :
    (sampleSeqQ.beeping_active = true ∧
     sampleSeqQ.current_result = some sampleResultQ ∧
     sampleSeqQ.last_beep_time + calculate_beep_interval ℚ sampleResultQ.cents_offset <
       4294967296) ∧
    ((audio_sequencer_update_beeps ℚ sampleSeqQ 200).2.isSome = true ↔
      (0 < calculate_beep_interval ℚ sampleResultQ.cents_offset ∧
       calculate_beep_interval ℚ sampleResultQ.cents_offset ≤
         200 - sampleSeqQ.last_beep_time)) :=
  ⟨⟨rfl, rfl, by decide⟩,
   c6_update_beeps.1 sampleSeqQ sampleResultQ 200 rfl rfl (by decide)⟩

/-- C9: every beep fired by `audio_sequencer_update_beeps` has the fixed
frequency 800 Hz and fixed duration 50 ms, independent of the cents offset;
the per-tier `beep_duration` field of the cadence table is zero in every tier
(the C initialisers omit it) and is never consulted. -/
theorem c9_beep_fixed :
    (∀ (s : SeqState ℚ) (now : Nat) (b : BeepEvent ℚ),
        (audio_sequencer_update_beeps ℚ s now).2 = some b →
        b.freq = 800 ∧ b.duration_ms = 50) ∧
    (∀ r ∈ beep_rates ℚ, r.beep_duration = 0) := by
  constructor
  · rintro ⟨ba, cr, lbt, bet⟩ now b h
    simp only [audio_sequencer_update_beeps] at h
    match cr with
    | none => simp at h
    | some r =>
        dsimp only at h
        by_cases hba : ba = false
        · rw [if_pos hba] at h
          simp at h
        · rw [if_neg hba] at h
          by_cases hi : calculate_beep_interval ℚ r.cents_offset = 0
          · rw [if_pos hi] at h
            simp at h
          · rw [if_neg hi] at h
            by_cases ht :
                (lbt + calculate_beep_interval ℚ r.cents_offset) % 4294967296 ≤ now
            · rw [if_pos ht] at h
              simp only [Option.some_inj] at h
              subst h
              exact ⟨rfl, rfl⟩
            · rw [if_neg ht] at h
              simp at h
  · decide

theorem c9_witness :
    (audio_sequencer_update_beeps ℚ sampleSeqQ 200).2 = some ⟨800, 50⟩ ∧
    ((800 : ℚ) = 800 ∧ (50 : Nat) = 50) :=
  ⟨by decide,
   c9_beep_fixed.1 sampleSeqQ 200 ⟨800, 50⟩ (by decide)⟩

/-- C2: in every non-Idle session state, if the currently-targeted button is
not held during a poll, that same poll returns the session to Idle, clears the
target string to 0 and disables the amplifier (the release check is the last
step of every state handler, so it wins over the state's own transitions). -/
theorem c2_cancel (analyze : ℝ → Int → TuningResult ℝ) (s : TunerSys)
    (inp : PollInput)
    (hns : s.current_state ≠ tuner_state_t.idle)
    (hheld : inp.buttonHeld s.target_string = false) :
    (tuner_update analyze s inp).1.current_state = tuner_state_t.idle ∧
    (tuner_update analyze s inp).1.target_string = 0 ∧
    (tuner_update analyze s inp).1.amp_enabled = false := by
  cases hst : s.current_state
  case idle => exact absurd hst hns
  case playingReference =>
    simp only [tuner_update, hst, state_playing_reference]
    split_ifs <;> simp_all
  case waitingReadyBeep =>
    simp only [tuner_update, hst, state_waiting_ready_beep]
    split_ifs <;> simp_all
  case listening =>
    simp only [tuner_update, hst, state_listening]
    split_ifs <;> simp_all
  case playbackUserNote =>
    simp only [tuner_update, hst, state_playback_user_note]
    split_ifs <;> simp_all
  case playbackTargetNote =>
    simp only [tuner_update, hst, state_playback_target_note]
    split_ifs <;> simp_all
  case providingFeedback =>
    simp only [tuner_update, hst, state_providing_feedback]
    split_ifs <;> simp_all
  case errorRecovery =>
    simp only [tuner_update, hst, state_error_recovery]
    split_ifs <;> simp_all

theorem c2_witness :
    ((sampleSys tuner_state_t.listening).current_state ≠ tuner_state_t.idle ∧
     (sampleInput 0 0 false).buttonHeld
       (sampleSys tuner_state_t.listening).target_string = false) ∧
    ((tuner_update analyzeConst (sampleSys tuner_state_t.listening)
        (sampleInput 0 0 false)).1.current_state = tuner_state_t.idle ∧
     (tuner_update analyzeConst (sampleSys tuner_state_t.listening)
        (sampleInput 0 0 false)).1.target_string = 0 ∧
     (tuner_update analyzeConst (sampleSys tuner_state_t.listening)
        (sampleInput 0 0 false)).1.amp_enabled = false) :=
  ⟨⟨by decide, rfl⟩,
   c2_cancel analyzeConst (sampleSys tuner_state_t.listening)
     (sampleInput 0 0 false) (by decide) rfl⟩

/-- C1 (counterexample): in the Listening state a positive detected frequency
(110 Hz, button held, no timeout) moves the session to `playbackUserNote`,
not to `providingFeedback` as the claim states. -/
theorem c1_counterexample :
    (tuner_update analyzeConst (sampleSys tuner_state_t.listening)
        (sampleInput 100 110 true)).1.current_state =
      tuner_state_t.playbackUserNote ∧
    tuner_state_t.playbackUserNote ≠ tuner_state_t.providingFeedback := by
  constructor
  · norm_num [tuner_update, sampleSys, sampleInput, state_listening, analyzeConst,
      usub32]
  · decide

/-- C1 (amended): in the Listening state, when the detected frequency is
positive and the targeted button stays held, one update step runs the analyzer
on the target string, stores the result, resets the weak-signal counter and
transitions to `playbackUserNote`, leaving the cadence mapper untouched; the
stored result is handed to the cadence mapper later, when the target-note
playback completes in `playbackTargetNote`. -/
theorem c1_amended :
    (∀ (analyze : ℝ → Int → TuningResult ℝ) (s : TunerSys) (inp : PollInput),
        s.current_state = tuner_state_t.listening →
        inp.freq > 0 →
        inp.buttonHeld s.target_string = true →
        ((tuner_update analyze s inp).1.current_state =
            tuner_state_t.playbackUserNote ∧
         (tuner_update analyze s inp).1.latest_result =
            analyze inp.freq s.target_string ∧
         (tuner_update analyze s inp).1.weak_signal_count = 0 ∧
         (tuner_update analyze s inp).1.seq = s.seq)) ∧
    (∀ (analyze : ℝ → Int → TuningResult ℝ) (s : TunerSys) (inp : PollInput),
        s.current_state = tuner_state_t.playbackTargetNote →
        usub32 inp.now s.state_entry_time ≥ 1500 →
        inp.buttonHeld s.target_string = true →
        ((tuner_update analyze s inp).1.current_state =
            tuner_state_t.providingFeedback ∧
         (tuner_update analyze s inp).1.seq =
            generate_dynamic_beep_feedback ℝ s.seq (some s.latest_result))) := by
  constructor
  · intro analyze s inp hst hfreq hheld
    simp only [tuner_update, hst, state_listening]
    rw [if_pos hfreq]
    norm_num [hheld, usub32_self]
  · intro analyze s inp hst htime hheld
    simp only [tuner_update, hst, state_playback_target_note]
    rw [if_pos htime]
    norm_num [hheld]

theorem c1_witness :
    ((sampleSys tuner_state_t.listening).current_state = tuner_state_t.listening ∧
     (sampleInput 100 1 true).freq > 0 ∧
     (sampleInput 100 1 true).buttonHeld
       (sampleSys tuner_state_t.listening).target_string = true) ∧
    ((tuner_update analyzeConst (sampleSys tuner_state_t.listening)
        (sampleInput 100 1 true)).1.current_state =
      tuner_state_t.playbackUserNote ∧
     (tuner_update analyzeConst (sampleSys tuner_state_t.listening)
        (sampleInput 100 1 true)).1.latest_result =
      analyzeConst (sampleInput 100 1 true).freq
        (sampleSys tuner_state_t.listening).target_string ∧
     (tuner_update analyzeConst (sampleSys tuner_state_t.listening)
        (sampleInput 100 1 true)).1.weak_signal_count = 0 ∧
     (tuner_update analyzeConst (sampleSys tuner_state_t.listening)
        (sampleInput 100 1 true)).1.seq = (sampleSys tuner_state_t.listening).seq) :=
  ⟨⟨rfl, zero_lt_one, rfl⟩,
   c1_amended.1 analyzeConst (sampleSys tuner_state_t.listening)
     (sampleInput 100 1 true) rfl zero_lt_one rfl⟩

/-- C5: the warning cue is emitted exactly once per ErrorRecovery entry and the
fixed 2000 ms recovery delay returns the session to Listening with the
weak-signal counter reset: (1) the first ErrorRecovery poll emits the cue,
(2) later polls of the same stay do not, (3) once the delay elapses (button
still held) the state returns to Listening with the counter 0 and the
warning latch cleared, (4) the latch is clear whenever the session is outside
ErrorRecovery (so each entry starts un-latched), and (5) the latch is set
while the stay lasts. -/
theorem c5_error_recovery :
    (∀ (analyze : ℝ → Int → TuningResult ℝ) (s : TunerSys) (inp : PollInput),
        s.current_state = tuner_state_t.errorRecovery →
        s.warning_played = false →
        (tuner_update analyze s inp).2.warningEmitted = true) ∧
    (∀ (analyze : ℝ → Int → TuningResult ℝ) (s : TunerSys) (inp : PollInput),
        s.current_state = tuner_state_t.errorRecovery →
        s.warning_played = true →
        (tuner_update analyze s inp).2.warningEmitted = false) ∧
    (∀ (analyze : ℝ → Int → TuningResult ℝ) (s : TunerSys) (inp : PollInput),
        s.current_state = tuner_state_t.errorRecovery →
        usub32 inp.now s.state_entry_time ≥ 2000 →
        inp.buttonHeld s.target_string = true →
        ((tuner_update analyze s inp).1.current_state = tuner_state_t.listening ∧
         (tuner_update analyze s inp).1.weak_signal_count = 0 ∧
         (tuner_update analyze s inp).1.warning_played = false)) ∧
    (∀ (analyze : ℝ → Int → TuningResult ℝ) (s : TunerSys) (inp : PollInput),
        (s.current_state ≠ tuner_state_t.errorRecovery → s.warning_played = false) →
        ((tuner_update analyze s inp).1.current_state ≠ tuner_state_t.errorRecovery →
         (tuner_update analyze s inp).1.warning_played = false)) ∧
    (∀ (analyze : ℝ → Int → TuningResult ℝ) (s : TunerSys) (inp : PollInput),
        s.current_state = tuner_state_t.errorRecovery →
        (tuner_update analyze s inp).1.current_state = tuner_state_t.errorRecovery →
        (tuner_update analyze s inp).1.warning_played = true) := by
  refine ⟨?_, ?_, ?_, ?_, ?_⟩
  · intro analyze s inp hst hwp
    simp [tuner_update, hst, state_error_recovery, hwp]
  · intro analyze s inp hst hwp
    simp [tuner_update, hst, state_error_recovery, hwp]
  · intro analyze s inp hst htime hheld
    by_cases hwp : s.warning_played = true
    · simp [tuner_update, hst, state_error_recovery, htime, hheld, hwp]
    · simp [tuner_update, hst, state_error_recovery, htime, hheld, hwp]
  · intro analyze s inp hinv hne
    cases hst : s.current_state
    case idle =>
      have hwp : s.warning_played = false := hinv (by simp [hst])
      rcases hbe : inp.buttonEvent with _ | ⟨id, pressed⟩ <;>
        simp only [tuner_update, hst, state_idle, hbe] <;>
        first
          | exact hwp
          | (split_ifs <;> simp_all)
    case playingReference =>
      have hwp : s.warning_played = false := hinv (by simp [hst])
      simp only [tuner_update, hst, state_playing_reference]
      split_ifs <;> simp_all
    case waitingReadyBeep =>
      have hwp : s.warning_played = false := hinv (by simp [hst])
      simp only [tuner_update, hst, state_waiting_ready_beep]
      split_ifs <;> simp_all
    case listening =>
      have hwp : s.warning_played = false := hinv (by simp [hst])
      simp only [tuner_update, hst, state_listening]
      split_ifs <;> simp_all
    case playbackUserNote =>
      have hwp : s.warning_played = false := hinv (by simp [hst])
      simp only [tuner_update, hst, state_playback_user_note]
      split_ifs <;> simp_all
    case playbackTargetNote =>
      have hwp : s.warning_played = false := hinv (by simp [hst])
      simp only [tuner_update, hst, state_playback_target_note]
      split_ifs <;> simp_all
    case providingFeedback =>
      have hwp : s.warning_played = false := hinv (by simp [hst])
      simp only [tuner_update, hst, state_providing_feedback]
      split_ifs <;> simp_all
    case errorRecovery =>
      revert hne
      simp only [tuner_update, hst, state_error_recovery]
      intro hne
      split_ifs at hne ⊢ <;> simp_all
  · intro analyze s inp hst hstay
    revert hstay
    simp only [tuner_update, hst, state_error_recovery]
    intro hstay
    split_ifs at hstay ⊢ <;> simp_all

theorem c5_witness :
    ((sampleSys tuner_state_t.errorRecovery).current_state =
        tuner_state_t.errorRecovery ∧
     (sampleSys tuner_state_t.errorRecovery).warning_played = false) ∧
    (tuner_update analyzeConst (sampleSys tuner_state_t.errorRecovery)
        (sampleInput 0 0 true)).2.warningEmitted = true :=
  ⟨⟨rfl, rfl⟩,
   c5_error_recovery.1 analyzeConst (sampleSys tuner_state_t.errorRecovery)
     (sampleInput 0 0 true) rfl rfl⟩
